import Mathlib

/-!
Formal model of the BookListBuilder tool (src/script.py).

The Python program enriches a list of book records with metadata from the
Aladin catalog API and ownership data from the read365 school-library
service, then renders the records into a spreadsheet.  This file gives a
shallow embedding of the data model and of the operations the design
claims talk about:

  - the mutable `Book` record (dataclass `Book`),
  - `update_book_info` (catalog lookup, lines 137-206),
  - `update_library_status` (ownership lookup, lines 90-135),
  - the dispatch loop of `create` (lines 246-260), modelled as the
    deterministic sequence of submit/wait events performed by the main
    thread,
  - the sheet grouping and row ordering of `create` (lines 264-273),
  - the column width computation (lines 208-224 and 278-301),
  - the row height computation (lines 304-321),
  - the per-cell rendering of the title and ownership columns
    (lines 323-347) and the two conditional formatting rules
    (lines 364-377).

Network requests are modelled by explicit response values, so a lookup
function takes the response it would have received as an argument.
Python dynamic typing is modelled only where the program exploits it:
the `item_id` field can hold `None`, an `int`, or a `str` (the catalog
lookup stores the empty string when the response lacks `itemId`), and
values drawn from JSON that the code passes to `int()` or `float()` are
modelled by a small JSON scalar type so that the conversions can fail
exactly where the Python calls can raise.  Python `float` values are
modelled by `Rat`.
-/

/-- Tri-state ownership status (`LibraryBookStatus`, lines 22-25). -/
inductive LibraryBookStatus where
  | EXISTS
  | NOT_EXISTS
  | UNKNOWN
deriving DecidableEq

/-- Values the `item_id` field of a `Book` can hold at runtime.  The
dataclass annotates it `Optional[int]`, but line 171 stores
`item.get("itemId", "")`, which is the empty string when the response
lacks the field. -/
inductive ItemId where
  | noneId
  | intId (n : Int)
  | strId (v : String)
deriving DecidableEq

/-- Python truthiness of an `item_id` value: `None`, `0` and `""` are
falsy; every other value is truthy. -/
def ItemId.truthy : ItemId → Bool
  | .noneId => false
  | .intId n => n != 0
  | .strId v => v != ""

/-- Python `str()` of an `item_id` value, as used by f-strings. -/
def ItemId.pyStr : ItemId → String
  | .noneId => "None"
  | .intId n => toString n
  | .strId v => v

/-- The central `Book` dataclass (lines 27-47).  Cover image bytes are
modelled as an opaque string. -/
structure Book where
  item_id : ItemId := .noneId
  order : Int := 0
  key : Option Int := none
  species_key : Option Int := none
  title : String := ""
  cover : Option String := none
  author : String := ""
  publisher : String := ""
  isbn13 : String := ""
  standard_price : Int := 0
  publish_date : String := ""
  description : String := ""
  rating_score : Rat := 0
  rating_count : Int := 0
  sales_point : Int := 0
  category : String := ""
  sheet_name : String := ""
  library_status : LibraryBookStatus := .UNKNOWN
  memo : String := ""
deriving DecidableEq

/-- JSON scalar values, used for the fields whose raw JSON value the
code feeds to Python `int()` or `float()` (`priceStandard`,
`ratingScore`, `ratingCount`). -/
inductive JVal where
  | null
  | s (v : String)
  | n (v : Int)
  | f (q : Rat)
deriving DecidableEq

/-- Digits-only parse of a character list into a natural number; `none`
on an empty list or any non-digit character. -/
def parseNatDigits (cs : List Char) : Option Nat :=
  if cs = [] then none
  else
    cs.foldl
      (fun acc c =>
        match acc with
        | none => none
        | some n => if c.isDigit then some (n * 10 + (c.toNat - 48)) else none)
      (some 0)

/-- Whitespace stripping from both ends (Python `str.strip()` and the
trimming Python number parsing performs). -/
def pyStrip (s : String) : String :=
  String.mk (((s.data.dropWhile Char.isWhitespace).reverse.dropWhile Char.isWhitespace).reverse)

/-- Split a leading sign character off a digit sequence; the flag is
true for a leading minus. -/
def splitSign : List Char → Bool × List Char
  | '-' :: rest => (true, rest)
  | '+' :: rest => (false, rest)
  | cs => (false, cs)

/-- Python `int()` applied to a string: whitespace is stripped and an
optional sign followed by digits is accepted (the model omits exotic
accepted forms such as underscores between digits). -/
def pyIntOfString (s : String) : Option Int :=
  let sc := splitSign (pyStrip s).data
  (parseNatDigits sc.2).map (fun n => if sc.1 then -(n : Int) else (n : Int))

/-- Plain decimal literal parse (optional sign, digits, optional point),
used to model Python `float()` on strings and Excel `VALUE` (both are
restricted here to plain decimal literals). -/
def parseDecimal (s : String) : Option Rat :=
  let sc := splitSign (pyStrip s).data
  match sc.2.splitOn '.' with
  | [ip] => (parseNatDigits ip).map (fun n => if sc.1 then -(n : Rat) else (n : Rat))
  | [ip, fp] =>
    if ip = [] && fp = [] then none
    else
      match (if ip = [] then some 0 else parseNatDigits ip),
            (if fp = [] then some 0 else parseNatDigits fp) with
      | some a, some f =>
        let m : Rat := (a : Rat) + (f : Rat) / ((10 : Rat) ^ fp.length)
        some (if sc.1 then -m else m)
      | _, _ => none
  | _ => none

/-- Truncation toward zero, the behaviour of Python `int()` on a float. -/
def ratTrunc (q : Rat) : Int :=
  if q < 0 then -Int.floor (-q) else Int.floor q

/-- Python `int()` on a JSON scalar: fails (raises) on `null` and on
non-numeric strings. -/
def pyInt : JVal → Option Int
  | .null => none
  | .s v => pyIntOfString v
  | .n v => some v
  | .f q => some (ratTrunc q)

/-- Python `float()` on a JSON scalar: fails (raises) on `null` and on
non-numeric strings. -/
def pyFloat : JVal → Option Rat
  | .null => none
  | .s v => parseDecimal v
  | .n v => some v
  | .f q => some q

/-- The `ratingInfo` sub-object of an Aladin item
(`item["subInfo"]["ratingInfo"]`, line 166). -/
structure RatingInfo where
  ratingScore : Option JVal := none
  ratingCount : Option JVal := none
deriving DecidableEq

/-- One entry of the `item` array of an Aladin ItemLookUp response.
Fields the code reads as strings or ints without conversion are typed
directly; fields passed to `int()`/`float()` keep their raw JSON scalar. -/
structure AladinItem where
  title : Option String := none
  itemId : Option Int := none
  author : Option String := none
  publisher : Option String := none
  isbn13 : Option String := none
  priceStandard : Option JVal := none
  pubDate : Option String := none
  description : Option String := none
  ratingInfo : Option RatingInfo := none
  salesPoint : Option Int := none
  categoryName : Option String := none
  cover : Option String := none
deriving DecidableEq

/-- Outcome of the Aladin HTTP request in `update_book_info`:
a network-level error (`requests.RequestException`, which includes the
`HTTPError` raised by `raise_for_status`), a JSON decoding error, or a
decoded `item` array. -/
inductive CatalogResponse where
  | netErr
  | badJson
  | ok (items : List AladinItem)

/-- Value stored by line 171, `book.item_id = item.get("itemId", "")`:
the integer when present, the empty string when the field is missing. -/
def itemIdOfOpt : Option Int → ItemId
  | some n => ItemId.intId n
  | none => ItemId.strId ""

/-- Cover handling of lines 185-194: when the item carries a truthy
cover URL the code fetches it; on success the bytes are stored, on a
request error the cover is set to `None`.  `fetch` maps a URL to the
fetched bytes, or `none` for a request error. -/
def applyCover (b : Book) (coverUrl : Option String) (fetch : String → Option String) : Book :=
  match coverUrl with
  | none => b
  | some u =>
    if u = "" then b
    else
      match fetch u with
      | some bytes => { b with cover := some bytes }
      | none => { b with cover := none }

/-- Catalog lookup `update_book_info` (lines 137-206), with the HTTP
exchange replaced by the received `CatalogResponse`.  The model follows
the statement order of the Python body: `desc`, `score` and `count` are
computed before any field assignment (lines 165-168; a conversion error
there aborts before anything is written), lines 170-174 then assign
title, item id, author, publisher and ISBN, line 175 converts
`priceStandard` with `int()` (a conversion error there is caught by the
generic handler after those five fields were already assigned), and
lines 176-194 assign the remaining fields and handle the cover.  Every
raised-and-caught exception path returns the book as it stood at that
point. -/
def update_book_info (b : Book) (resp : CatalogResponse) (fetch : String → Option String) : Book :=
  match resp with
  | .netErr => b
  | .badJson => b
  | .ok [] => b
  | .ok (item :: _) =>
    let desc := pyStrip (item.description.getD "")
    let rinfo := item.ratingInfo.getD {}
    match pyFloat (rinfo.ratingScore.getD (.n 0)) with
    | none => b
    | some score =>
      match pyInt (rinfo.ratingCount.getD (.n 0)) with
      | none => b
      | some count =>
        let b1 : Book :=
          { b with
            title := item.title.getD ""
            item_id := itemIdOfOpt item.itemId
            author := item.author.getD ""
            publisher := item.publisher.getD ""
            isbn13 := item.isbn13.getD "" }
        match pyInt (item.priceStandard.getD (.n 0)) with
        | none => b1
        | some price =>
          let b2 : Book :=
            { b1 with
              standard_price := price
              publish_date := item.pubDate.getD ""
              description := desc
              rating_score := score
              rating_count := count
              sales_point := item.salesPoint.getD 0
              category := item.categoryName.getD "" }
          applyCover b2 item.cover fetch

/-- All descriptive/popularity fields and both identity fields of `r`
coincide with those of `b` (the failure outcome the catalog-atomicity
claim describes). -/
def descFieldsUnchanged (b r : Book) : Prop :=
  r.title = b.title ∧ r.author = b.author ∧ r.publisher = b.publisher ∧
  r.standard_price = b.standard_price ∧ r.publish_date = b.publish_date ∧
  r.description = b.description ∧ r.rating_score = b.rating_score ∧
  r.rating_count = b.rating_count ∧ r.sales_point = b.sales_point ∧
  r.category = b.category ∧ r.item_id = b.item_id ∧ r.isbn13 = b.isbn13

instance (b r : Book) : Decidable (descFieldsUnchanged b r) := by
  unfold descFieldsUnchanged; infer_instance

/-- All descriptive/popularity and identity fields of `r` carry the
values the success path of `update_book_info` derives from `item` (the
success outcome the catalog-atomicity claim describes). -/
def fullyUpdatedFrom (r : Book) (item : AladinItem) : Prop :=
  ∃ score count price,
    pyFloat ((item.ratingInfo.getD {}).ratingScore.getD (.n 0)) = some score ∧
    pyInt ((item.ratingInfo.getD {}).ratingCount.getD (.n 0)) = some count ∧
    pyInt (item.priceStandard.getD (.n 0)) = some price ∧
    r.title = item.title.getD "" ∧ r.item_id = itemIdOfOpt item.itemId ∧
    r.author = item.author.getD "" ∧ r.publisher = item.publisher.getD "" ∧
    r.isbn13 = item.isbn13.getD "" ∧
    r.standard_price = price ∧ r.publish_date = item.pubDate.getD "" ∧
    r.description = pyStrip (item.description.getD "") ∧
    r.rating_score = score ∧ r.rating_count = count ∧
    r.sales_point = item.salesPoint.getD 0 ∧
    r.category = item.categoryName.getD ""

/-- The partial outcome `update_book_info` actually produces when the
`int()` conversion of `priceStandard` raises: the five fields assigned
by lines 170-174 carry response values while every later field keeps
its prior value. -/
def prefixUpdatedFrom (b r : Book) (item : AladinItem) : Prop :=
  pyInt (item.priceStandard.getD (.n 0)) = none ∧
  r.title = item.title.getD "" ∧ r.item_id = itemIdOfOpt item.itemId ∧
  r.author = item.author.getD "" ∧ r.publisher = item.publisher.getD "" ∧
  r.isbn13 = item.isbn13.getD "" ∧
  r.standard_price = b.standard_price ∧ r.publish_date = b.publish_date ∧
  r.description = b.description ∧ r.rating_score = b.rating_score ∧
  r.rating_count = b.rating_count ∧ r.sales_point = b.sales_point ∧
  r.category = b.category

/-- The catalog-atomicity property exactly as the design claims it: for
any outcome, either every descriptive/popularity field is populated
together from the one successful response, or every such field (and both
identity fields) is left unchanged. -/
def catalogAtomicityHolds (b : Book) (resp : CatalogResponse) (fetch : String → Option String) : Prop :=
  descFieldsUnchanged b (update_book_info b resp fetch) ∨
  ∀ item rest, resp = CatalogResponse.ok (item :: rest) →
    fullyUpdatedFrom (update_book_info b resp fetch) item

/-- Concrete input refuting catalog atomicity: the record before the
lookup. -/
def c1book : Book := { isbn13 := "9780000000000" }

/-- Concrete response item whose `priceStandard` is a non-numeric
string, so Python `int()` raises after line 174. -/
def c1item : AladinItem :=
  { title := some "T", pubDate := some "2020-01-01", priceStandard := some (.s "abc") }

/-- Cover fetch that always fails (irrelevant to the counterexample). -/
def c1fetch : String → Option String := fun _ => none

/-- One entry of the `bookList` array returned by the read365 search
endpoint (line 108).  Each field is optional: `item.get(...)` yields
`None` when absent. -/
structure LibEntry where
  isbn : Option String := none
  bookKey : Option Int := none
  speciesKey : Option Int := none
deriving DecidableEq

/-- Outcome of the read365 HTTP request in `update_library_status`:
an HTTP error raised by `raise_for_status` (line 104), another request
error, an unexpected exception during processing, or a decoded
`bookList` array. -/
inductive LibResponse where
  | httpErr
  | netErr
  | exn
  | ok (bookList : List LibEntry)

/-- The match test of line 111, `item.get("isbn") == book.isbn13`:
a missing `isbn` field (`None`) never equals a string. -/
def libraryMatches (b : Book) (e : LibEntry) : Bool :=
  e.isbn == some b.isbn13

/-- The JSON payload built by lines 93-98 for the read365 search
request. -/
structure LibPayload where
  searchKeyword : String
  neisCode : List String
  provCode : String
  coverYn : String
deriving DecidableEq

/-- Payload construction of `update_library_status` (lines 93-98): the
search keyword is the record current ISBN-13. -/
def libraryPayload (b : Book) (neis prov : String) : LibPayload :=
  { searchKeyword := b.isbn13, neisCode := [neis], provCode := prov, coverYn := "N" }

/-- Ownership lookup `update_library_status` (lines 90-135), with the
HTTP exchange replaced by the received `LibResponse`.  The loop of
lines 110-116 stops at the first entry whose `isbn` equals the record
ISBN-13 and copies that entry `bookKey` and `speciesKey`; if no entry
matches, the status becomes `NOT_EXISTS` (line 118); every error path
sets the status to `UNKNOWN` (lines 122-135).  No path raises and no
path other than a match touches the two key fields. -/
def update_library_status (b : Book) (resp : LibResponse) : Book :=
  match resp with
  | .ok results =>
    match results.find? (libraryMatches b) with
    | some e =>
      { b with library_status := .EXISTS, key := e.bookKey, species_key := e.speciesKey }
    | none => { b with library_status := .NOT_EXISTS }
  | _ => { b with library_status := .UNKNOWN }

/-- Concrete record for the ownership-contract witness. -/
def c3book : Book := { isbn13 := "9788900000001" }

/-- Concrete matching entry for the ownership-contract witness. -/
def c3entry : LibEntry :=
  { isbn := some "9788900000001", bookKey := some 3, speciesKey := some 44 }

/-- The three kinds of actions the dispatch loop of `create`
(lines 246-260) performs on the main thread, tagged with the index of
the record they concern: submitting the catalog task, blocking on the
catalog future (`concurrent.futures.wait([info_future])`, line 253),
and submitting the ownership task. -/
inductive DispatchEvent where
  | submitInfo (i : Nat)
  | waitInfo (i : Nat)
  | submitLib (i : Nat)
deriving DecidableEq

/-- Index of the record a dispatch event concerns. -/
def DispatchEvent.idx : DispatchEvent → Nat
  | .submitInfo i => i
  | .waitInfo i => i
  | .submitLib i => i

/-- Condition of line 250, `book.item_id is not None and book.isbn13 == ""`. -/
def needsSeq (b : Book) : Bool :=
  (b.item_id != ItemId.noneId) && (b.isbn13 == "")

/-- Main-thread actions the dispatch loop performs for one record: in
the sequential branch (lines 251-254) it submits the catalog task,
blocks until it finishes, then submits the ownership task; otherwise
(lines 256-258) it submits both tasks back to back. -/
def recordEvents (i : Nat) (b : Book) : List DispatchEvent :=
  if needsSeq b then [.submitInfo i, .waitInfo i, .submitLib i]
  else [.submitInfo i, .submitLib i]

/-- Dispatch trace of the loop over `books` (lines 249-258), starting
at record index `i`.  The trace depends only on the input records: the
condition of line 250 reads fields of a record whose own tasks have not
been submitted yet, so no lookup result can influence it. -/
def dispatchTraceFrom : Nat → List Book → List DispatchEvent
  | _, [] => []
  | i, b :: rest => recordEvents i b ++ dispatchTraceFrom (i + 1) rest

/-- Dispatch trace of the whole loop. -/
def dispatchTrace (books : List Book) : List DispatchEvent :=
  dispatchTraceFrom 0 books

/-- A record that triggers the sequential branch: catalog item id known,
ISBN-13 empty. -/
def c2book0 : Book := { item_id := ItemId.intId 5 }

/-- A second record, dispatched after the first. -/
def c2book1 : Book := { isbn13 := "9791190123456", sheet_name := "A" }

/-- Values a column getter can produce: a string, an int, or the cover
image slot. -/
inductive CellVal where
  | s (v : String)
  | i (v : Int)
  | img (v : Option String)
deriving DecidableEq

/-- A column of the output sheet (`Column`, lines 49-53). -/
structure Column where
  header : String
  getter : Book → CellVal
  fmt_key : Option String

/-- Banker rounding, the behaviour of Python built-in `round` on a
half-way value. -/
def pyRound (q : Rat) : Int :=
  let f := Rat.floor q
  let r := q - (f : Rat)
  if r < 1 / 2 then f
  else if 1 / 2 < r then f + 1
  else if f % 2 = 0 then f else f + 1

/-- Python `f"{x:.1f}"` on the model rationals: round half to even at
one decimal and render with exactly one digit after the point. -/
def fmt1f (q : Rat) : String :=
  let t := pyRound (q * 10)
  let sign := if t < 0 then "-" else ""
  sign ++ toString (t.natAbs / 10) ++ "." ++ toString (t.natAbs % 10)

/-- The star part of the rating column (line 83):
`"★" * round(score/2) + "☆" * (5 - round(score/2))`.  Python repeats a
string zero times for a non-positive count, which `Int.toNat` mirrors. -/
def starText (q : Rat) : String :=
  let k := pyRound (q / 2)
  String.mk (List.replicate k.toNat (Char.ofNat 9733)) ++
    String.mk (List.replicate (5 - k).toNat (Char.ofNat 9734))

/-- Formatted value of the rating column (line 83). -/
def ratingText (b : Book) : String :=
  fmt1f b.rating_score ++ " " ++ starText b.rating_score ++ " (" ++
    toString b.rating_count ++ ")"

/-- Formatted value of the ownership column (line 86):
`O` for `EXISTS`, `X` for `NOT_EXISTS`, `?` otherwise. -/
def ownershipIndicator (b : Book) : String :=
  if b.library_status == LibraryBookStatus.EXISTS then "O"
  else if b.library_status == LibraryBookStatus.NOT_EXISTS then "X"
  else "?"

/-- The fixed column list `COLUMNS` (lines 74-88), in source order. -/
def COLUMNS : List Column :=
  [ { header := "", getter := fun b => .img b.cover, fmt_key := none },
    { header := "도서", getter := fun b => .s b.title, fmt_key := some "center" },
    { header := "저자", getter := fun b => .s b.author, fmt_key := some "center" },
    { header := "출판사", getter := fun b => .s b.publisher, fmt_key := some "center" },
    { header := "ISBN13", getter := fun b => .s b.isbn13, fmt_key := some "center" },
    { header := "정가", getter := fun b => .i b.standard_price, fmt_key := some "price" },
    { header := "출판일", getter := fun b => .s b.publish_date, fmt_key := some "center" },
    { header := "설명", getter := fun b => .s b.description, fmt_key := some "left" },
    { header := "평점", getter := fun b => .s (ratingText b), fmt_key := some "center" },
    { header := "판매 지수", getter := fun b => .i b.sales_point, fmt_key := some "sales_point" },
    { header := "카테고리", getter := fun b => .s b.category, fmt_key := some "left" },
    { header := "교내 도서관 소장", getter := fun b => .s (ownershipIndicator b), fmt_key := some "center" },
    { header := "메모", getter := fun b => .s b.memo, fmt_key := some "left" } ]

/-- One step of the sheet-name collection loop (lines 264-267). -/
def seqStep (acc : List String) (s : String) : List String :=
  if s ∈ acc then acc else acc ++ [s]

/-- `sheet_sequence` of lines 264-267: every sheet name, in order of
first occurrence in the input. -/
def sheetSequence (books : List Book) : List String :=
  books.foldl (fun acc b => seqStep acc b.sheet_name) []

/-- Reference form of first-seen deduplication: keep the head, drop its
later duplicates, recurse. -/
def firstSeen : List String → List String
  | [] => []
  | x :: xs => x :: firstSeen (xs.filter (fun y => y != x))
termination_by l => l.length
decreasing_by
  exact Nat.lt_succ_of_le (List.length_filter_le _ _)

/-- Order relation used by `group_books.sort(key=lambda x: x.order)`
(line 271). -/
def bookLE (a b : Book) : Prop := a.order ≤ b.order

instance : DecidableRel bookLE := fun a b =>
  inferInstanceAs (Decidable (a.order ≤ b.order))

instance : IsTotal Book bookLE := ⟨fun a b => Int.le_total a.order b.order⟩

instance : IsTrans Book bookLE := ⟨fun _ _ _ => Int.le_trans⟩

/-- Rows of one sheet (lines 270-271): the records with that sheet
name, in input order, stably sorted by their `order` field.  Python
`list.sort` is a stable sort, which insertion sort mirrors. -/
def groupBooksFor (books : List Book) (s : String) : List Book :=
  List.insertionSort bookLE (books.filter (fun b => b.sheet_name == s))

/-- The sheets the workbook will contain, in emission order, each with
its data rows in emission order (lines 269-273). -/
def createSheets (books : List Book) : List (String × List Book) :=
  (sheetSequence books).map (fun s => (s, groupBooksFor books s))

/-- A written cell: either a hyperlink with a label or plain text. -/
inductive CellOut where
  | url (href : String) (label : String)
  | text (t : String)
deriving DecidableEq

/-- Whether a written cell is a hyperlink. -/
def isHyperlink : CellOut → Bool
  | .url _ _ => true
  | .text _ => false

/-- The visible label of a written cell. -/
def cellLabel : CellOut → String
  | .url _ label => label
  | .text t => t

/-- Python truthiness of an optional int (the `book.key and
book.species_key` test of line 331): `None` and `0` are falsy. -/
def truthyOptInt : Option Int → Bool
  | none => false
  | some n => n != 0

/-- Python f-string rendering of an optional int. -/
def optIntPyStr : Option Int → String
  | none => "None"
  | some n => toString n

/-- The detail-page URL built on line 332. -/
def libraryDetailUrl (b : Book) (prov neis school : String) : String :=
  "https://read365.edunet.net/PureScreen/SearchDetail?bookKey=" ++ optIntPyStr b.key ++
    "&speciesKey=" ++ optIntPyStr b.species_key ++ "&provCode=" ++ prov ++
    "&neisCode=" ++ neis ++ "&schoolName=" ++ school ++ "&fromSchool=true"

/-- Rendering of the ownership cell, column index 11 (lines 330-335):
a hyperlink labelled 링크 when the status is `EXISTS` and both keys are
truthy, otherwise the plain indicator text. -/
def ownershipCell (b : Book) (prov neis school : String) : CellOut :=
  if (b.library_status == LibraryBookStatus.EXISTS) && truthyOptInt b.key &&
      truthyOptInt b.species_key then
    CellOut.url (libraryDetailUrl b prov neis school) "링크"
  else
    CellOut.text (ownershipIndicator b)

/-- Rendering of the title cell, column index 1 (lines 336-341): a
hyperlink to the Aladin item page when the item id is truthy, otherwise
plain text. -/
def titleCell (b : Book) : CellOut :=
  if b.item_id.truthy then
    CellOut.url ("https://www.aladin.co.kr/shop/wproduct.aspx?ItemId=" ++ b.item_id.pyStr)
      b.title
  else
    CellOut.text b.title

/-- The property the ownership-cell claim asserts: the cell is a
hyperlink exactly when the status is `EXISTS` and both reference keys
are present. -/
def ownershipCellClaim (b : Book) (prov neis school : String) : Prop :=
  isHyperlink (ownershipCell b prov neis school) = true ↔
    (b.library_status = LibraryBookStatus.EXISTS ∧
      b.key.isSome = true ∧ b.species_key.isSome = true)

/-- Concrete record refuting the ownership-cell claim: status `EXISTS`
with both keys present but `bookKey = 0`, which is falsy in Python. -/
def c5book : Book :=
  { library_status := .EXISTS, key := some 0, species_key := some 7 }

/-- One emitted conditional-formatting rule (`worksheet.conditional_format`
calls of lines 365-377): the cell range and the formula criteria. -/
structure CondRule where
  firstRow : Nat
  firstCol : Nat
  lastRow : Nat
  lastCol : Nat
  criteria : String
  fmtName : String
deriving DecidableEq

/-- First rule per sheet (lines 365-369): highlight rows whose
ownership cell shows the hyperlink label. -/
def highlightRule (nBooks : Nat) : CondRule :=
  { firstRow := 1, firstCol := 0, lastRow := nBooks, lastCol := COLUMNS.length - 1,
    criteria := "=$L2=\x22링크\x22", fmtName := "highlight" }

/-- Second rule per sheet (lines 371-377): the old-book formula, with
the current year spliced in by the f-string. -/
def oldBookRule (nBooks : Nat) (year : Int) : CondRule :=
  { firstRow := 1, firstCol := 0, lastRow := nBooks, lastCol := COLUMNS.length - 1,
    criteria := "=AND(ISNUMBER(VALUE(LEFT($G2,4))), VALUE(LEFT($G2,4))<>" ++ toString year ++
      ", VALUE(LEFT($G2,4))<" ++ toString (year - 4) ++ ")",
    fmtName := "oldbook" }

/-- The two conditional-formatting rules emitted for one sheet, in
emission order. -/
def sheetCondRules (nBooks : Nat) (year : Int) : List CondRule :=
  [highlightRule nBooks, oldBookRule nBooks year]

/-- Excel `LEFT(text, k)`: the first `k` characters. -/
def excelLEFT (s : String) (k : Nat) : String := String.mk (s.data.take k)

/-- Excel `VALUE(text)` restricted to plain decimal literals (the only
shapes the publish-date prefix can take; commas, currency and percent
forms are not modelled). -/
def excelVALUE (s : String) : Option Rat := parseDecimal s

/-- Truth value of the old-book criteria formula
`AND(ISNUMBER(VALUE(LEFT($G2,4))), VALUE(LEFT($G2,4))<>year,
VALUE(LEFT($G2,4))<year-4)` on a row whose publish-date cell holds
`pub`.  When `VALUE` errors the formula does not evaluate to TRUE, so
the rule does not fire. -/
def oldBookFlag (pub : String) (year : Int) : Bool :=
  match excelVALUE (excelLEFT pub 4) with
  | some v => decide (v ≠ (year : Rat) ∧ v < (year : Rat) - 4)
  | none => false

/-- The metrics of the PIL reference font the layout uses: the advance
of the character A (`font.getlength('A')`, used as average glyph width)
and the nominal size (`font.size`). -/
structure PILFont where
  avgA : Rat
  size : Nat

/-- Estimated pixel advance of one character (line 220): twice the
average width for code points above 127, the average width otherwise. -/
def charPx (avg : Rat) (c : Char) : Rat :=
  if 127 < c.toNat then 2 * avg else avg

/-- Estimated pixel width of one line of text (lines 217-220). -/
def linePx (avg : Rat) (line : List Char) : Rat :=
  line.foldl (fun acc c => acc + charPx avg c) 0

/-- `get_text_px` (lines 208-224): the text is split on newlines, the
widest line estimate is truncated to an int, and the height estimate is
`int(len(lines) * font.size * 1.2)`. -/
def get_text_px (text : String) (font : PILFont) : Int × Int :=
  let lines := text.data.splitOn '\n'
  let maxW : Rat := lines.foldl (fun m l => max m (linePx font.avgA l)) 0
  (ratTrunc maxW, ratTrunc ((lines.length : Rat) * (font.size : Rat) * (12 / 10)))

/-- Thousands-separated digit grouping used by Python `f"{n:,}"`. -/
def commaChunks : List Char → List (List Char)
  | a :: b :: c :: rest@(_ :: _) => [a, b, c] :: commaChunks rest
  | l => [l]

/-- Python `f"{n:,}"` for an int. -/
def intComma (n : Int) : String :=
  let ds := (toString n.natAbs).data.reverse
  let grouped := (commaChunks ds).intersperse [',']
  (if n < 0 then "-" else "") ++ String.mk grouped.flatten.reverse

/-- The int value inside a cell value; only the price column (whose
getter always yields an int) is ever converted this way. -/
def cellInt : CellVal → Int
  | .i v => v
  | _ => 0

/-- Python `str(val or '')` on a cell value (line 291): a falsy value
(empty string or zero) renders as the empty string. -/
def strOrEmpty : CellVal → String
  | .s v => v
  | .i v => if v = 0 then "" else toString v
  | .img _ => ""

/-- The text measured for one cell in the width pass (line 291):
`f"{int(val):,}원"` for the price column, `str(val or '')` otherwise. -/
def widthText (col : Column) (b : Book) : String :=
  if col.fmt_key = some "price" then intComma (cellInt (col.getter b)) ++ "원"
  else strOrEmpty (col.getter b)

/-- Character-unit estimate for one text (lines 286 and 294):
pixel estimate divided by the average glyph width, plus 0.1. -/
def estCharW (t : String) (font : PILFont) : Rat :=
  (((get_text_px t font).1 : Rat)) / font.avgA + 1 / 10

/-- Width of one non-image column (lines 281-298): start from 0, take
the maximum with the header estimate and with every cell estimate of
the sheet, then clamp with `min(..., 60)`. -/
def colWidthCode (books : List Book) (col : Column) (font : PILFont) : Rat :=
  let w := books.foldl (fun acc b => max acc (estCharW (widthText col b) font))
    (max 0 (estCharW col.header font))
  min w 60

/-- Width stated by the design: the maximum of the header estimate and
all cell estimates, clamped to at most 60 character units. -/
def colWidthSpecMax (books : List Book) (col : Column) (font : PILFont) : Rat :=
  ((col.header :: books.map (widthText col)).map (fun t => estCharW t font)).foldl max 0

/-- The full per-sheet width vector (lines 278-301): the image column
keeps the fixed width 16, every other column gets `colWidthCode`. -/
def colWidthsFor (books : List Book) (font : PILFont) : List Rat :=
  COLUMNS.enum.map (fun p => if p.1 = 0 then (16 : Rat) else colWidthCode books p.2 font)

/-- Python `str(val)` on a cell value, as used by the row-height pass
(line 313; the image column never reaches this expression). -/
def pyStrCell : CellVal → String
  | .s v => v
  | .i v => toString v
  | .img _ => ""

/-- Line count of one cell (line 313): newline count plus one. -/
def cellLineCount (v : CellVal) : Nat :=
  (pyStrCell v).data.count '\n' + 1

/-- Height required by one cell (lines 310-314): the fixed 112 for the
image column, `lines * font_size * 1.7` otherwise. -/
def cellHeight (fontSize : Int) (idx : Nat) (col : Column) (b : Book) : Rat :=
  if idx = 0 then 112
  else (cellLineCount (col.getter b) : Rat) * (fontSize : Rat) * (17 / 10)

/-- Height of one data row (lines 306-318): the maximum over all
columns of the cell heights, starting from the one-line text height. -/
def rowHeightFor (fontSize : Int) (b : Book) : Rat :=
  COLUMNS.enum.foldl (fun acc p => max acc (cellHeight fontSize p.1 p.2 b))
    ((fontSize : Rat) * (17 / 10))

/-- The per-sheet row height vector (lines 304-318): the header row
uses the one-line text height, then one entry per data row. -/
def rowHeightsFor (fontSize : Int) (group : List Book) : List Rat :=
  (fontSize : Rat) * (17 / 10) :: group.map (rowHeightFor fontSize)

/-- A reference font for the width witness: average glyph width one
half, nominal size 11. -/
def c7font : PILFont := { avgA := 1 / 2, size := 11 }

/-- Memo column shape, used by the width witness. -/
def c7col : Column :=
  { header := "메모", getter := fun b => .s b.memo, fmt_key := some "left" }

/-- A record whose memo is 31 wide (non-ASCII) characters, so its
estimate exceeds the 60-unit clamp under `c7font`. -/
def c7book : Book := { memo := "가가가가가가가가가가가가가가가가가가가가가가가가가가가가가가가" }

/-- Successful catalog item used by witnesses: no `itemId` field, a
rating object with numeric score and count, a numeric price. -/
def c9item : AladinItem :=
  { title := some "어떤 책", author := some "저자", publisher := some "출판",
    isbn13 := some "9791190123456", priceStandard := some (.n 15000),
    pubDate := some "2021-05-01", description := some " 설명 ",
    ratingInfo := some { ratingScore := some (.f (8 : Rat)), ratingCount := some (.n 120) },
    salesPoint := some 777, categoryName := some "소설" }

/-- Record the `c9item` lookup starts from. -/
def c9book : Book := { item_id := ItemId.intId 12345 }

/-- Record for the empty-ISBN ownership-dispatch witness. -/
def c8book : Book := { item_id := ItemId.intId 99 }

/-- Library entry with an empty ISBN, used to exercise the match test
against the empty keyword. -/
def c8entry : LibEntry := { isbn := some "", bookKey := some 1, speciesKey := some 2 }

/-- Whatever the cover branch does, it touches only the `cover` field. -/
theorem applyCover_fields (b : Book) (cu : Option String) (f : String → Option String) :
    ∃ c, applyCover b cu f = { b with cover := c } := by
  cases cu with
  | none => exact ⟨b.cover, rfl⟩
  | some u =>
    by_cases hu : u = ""
    · subst hu
      exact ⟨b.cover, rfl⟩
    · cases hf : f u with
      | some bytes => exact ⟨some bytes, by simp only [applyCover, if_neg hu, hf]⟩
      | none => exact ⟨none, by simp only [applyCover, if_neg hu, hf]⟩

/-- C1.  The catalog-atomicity claim is refuted by a response whose
`priceStandard` is a non-numeric string: Python `int()` raises on line
175 after lines 170-174 already assigned title, item id, author,
publisher and ISBN, so the record is neither fully updated nor left
unchanged. -/
theorem update_book_info_atomicity_counterexample :
    ¬ catalogAtomicityHolds c1book (CatalogResponse.ok [c1item]) c1fetch := by
  intro h
  rcases h with h | h
  · exact absurd h.1 (by decide)
  · obtain ⟨score, count, price, hsc, hct, hpr, -⟩ := h c1item [] rfl
    have hnone : pyInt (c1item.priceStandard.getD (.n 0)) = none := by decide
    rw [hnone] at hpr
    exact Option.noConfusion hpr

/-- C1 (amended).  For every prior record, catalog response and cover
fetch, `update_book_info` yields one of exactly three outcomes: every
descriptive/popularity field and both identity fields unchanged (network
error, JSON error, empty result set, or a conversion error raised before
any assignment), or every such field populated together from the first
response item, or — when the `int()` conversion of `priceStandard`
raises — the five fields of lines 170-174 populated from the response
while all later fields keep their prior values. -/
theorem update_book_info_atomicity_amended (b : Book) (resp : CatalogResponse)
    (fetch : String → Option String) :
    descFieldsUnchanged b (update_book_info b resp fetch) ∨
      ∃ item rest, resp = CatalogResponse.ok (item :: rest) ∧
        (fullyUpdatedFrom (update_book_info b resp fetch) item ∨
          prefixUpdatedFrom b (update_book_info b resp fetch) item) := by
  have hrefl : descFieldsUnchanged b b :=
    ⟨rfl, rfl, rfl, rfl, rfl, rfl, rfl, rfl, rfl, rfl, rfl, rfl⟩
  cases resp with
  | netErr => exact Or.inl hrefl
  | badJson => exact Or.inl hrefl
  | ok items =>
    cases items with
    | nil => exact Or.inl hrefl
    | cons item rest =>
      cases hsc : pyFloat ((item.ratingInfo.getD {}).ratingScore.getD (.n 0)) with
      | none =>
        left
        simp only [update_book_info, hsc]
        exact hrefl
      | some score =>
        cases hct : pyInt ((item.ratingInfo.getD {}).ratingCount.getD (.n 0)) with
        | none =>
          left
          simp only [update_book_info, hsc, hct]
          exact hrefl
        | some count =>
          cases hpr : pyInt (item.priceStandard.getD (.n 0)) with
          | none =>
            refine Or.inr ⟨item, rest, rfl, Or.inr ?_⟩
            simp only [update_book_info, hsc, hct, hpr]
            exact ⟨hpr, rfl, rfl, rfl, rfl, rfl, rfl, rfl, rfl, rfl, rfl, rfl, rfl⟩
          | some price =>
            refine Or.inr ⟨item, rest, rfl, Or.inl ?_⟩
            simp only [update_book_info, hsc, hct, hpr]
            obtain ⟨c, hc⟩ := applyCover_fields _ item.cover fetch
            rw [hc]
            exact ⟨score, count, price, hsc, hct, hpr, rfl, rfl, rfl, rfl, rfl, rfl,
              rfl, rfl, rfl, rfl, rfl, rfl⟩

/-- C3.  `update_library_status` always terminates with the status set:
on a decoded result list, a matching entry yields `EXISTS` with both
keys copied from the first match, no match yields `NOT_EXISTS` with the
keys still unset, and every error outcome yields `UNKNOWN` with the
keys still unset.  The key fields are assumed unset beforehand, which
holds at the single call site (the lookup runs once per fresh record
and nothing else writes these fields). -/
theorem update_library_status_contract (b : Book) (resp : LibResponse)
    (hk : b.key = none) (hsk : b.species_key = none) :
    (∀ results, resp = LibResponse.ok results →
      ((∃ e ∈ results, libraryMatches b e = true) →
        (update_library_status b resp).library_status = LibraryBookStatus.EXISTS ∧
        ∃ e, results.find? (libraryMatches b) = some e ∧ e.isbn = some b.isbn13 ∧
          (update_library_status b resp).key = e.bookKey ∧
          (update_library_status b resp).species_key = e.speciesKey) ∧
      ((∀ e ∈ results, libraryMatches b e = false) →
        (update_library_status b resp).library_status = LibraryBookStatus.NOT_EXISTS ∧
        (update_library_status b resp).key = none ∧
        (update_library_status b resp).species_key = none)) ∧
    ((resp = LibResponse.httpErr ∨ resp = LibResponse.netErr ∨ resp = LibResponse.exn) →
      (update_library_status b resp).library_status = LibraryBookStatus.UNKNOWN ∧
      (update_library_status b resp).key = none ∧
      (update_library_status b resp).species_key = none) := by
  constructor
  · intro results hresp
    subst hresp
    cases hf : results.find? (libraryMatches b) with
    | none =>
      constructor
      · rintro ⟨e, he, hme⟩
        exact absurd hme (by simpa using List.find?_eq_none.mp hf e he)
      · intro _
        have hred : update_library_status b (LibResponse.ok results) =
            { b with library_status := .NOT_EXISTS } := by
          simp only [update_library_status, hf]
        rw [hred]
        exact ⟨rfl, hk, hsk⟩
    | some e =>
      have hred : update_library_status b (LibResponse.ok results) =
          { b with library_status := .EXISTS, key := e.bookKey, species_key := e.speciesKey } := by
        simp only [update_library_status, hf]
      constructor
      · intro _
        have hpe : libraryMatches b e = true := List.find?_some hf
        have hisbn : e.isbn = some b.isbn13 := by
          simpa [libraryMatches] using hpe
        rw [hred]
        exact ⟨rfl, e, rfl, hisbn, rfl, rfl⟩
      · intro hall
        have hmem : e ∈ results := List.mem_of_find?_eq_some hf
        have := hall e hmem
        have hpe : libraryMatches b e = true := List.find?_some hf
        rw [this] at hpe
        exact Bool.noConfusion hpe
  · intro herr
    have : update_library_status b resp = { b with library_status := .UNKNOWN } := by
      rcases herr with rfl | rfl | rfl <;> rfl
    rw [this]
    exact ⟨rfl, hk, hsk⟩

/-- Witness for C3: a one-entry result list matching the record ISBN
yields `EXISTS` with both keys captured. -/
theorem update_library_status_contract_witness :
    (update_library_status c3book (LibResponse.ok [c3entry])).library_status =
      LibraryBookStatus.EXISTS ∧
    (update_library_status c3book (LibResponse.ok [c3entry])).key = some 3 ∧
    (update_library_status c3book (LibResponse.ok [c3entry])).species_key = some 44 := by
  obtain ⟨hok, -⟩ := update_library_status_contract c3book (LibResponse.ok [c3entry]) rfl rfl
  obtain ⟨hm, -⟩ := hok [c3entry] rfl
  obtain ⟨hst, e, hfind, -, hkey, hskey⟩ := hm ⟨c3entry, by decide, by decide⟩
  have hfc : [c3entry].find? (libraryMatches c3book) = some c3entry := by decide
  rw [hfc] at hfind
  injection hfind with he
  subst he
  exact ⟨hst, hkey, hskey⟩

/-- The dispatch trace of a concatenation splits at the record count of
the first part. -/
theorem dispatchTraceFrom_append (l1 l2 : List Book) (i : Nat) :
    dispatchTraceFrom i (l1 ++ l2) =
      dispatchTraceFrom i l1 ++ dispatchTraceFrom (i + l1.length) l2 := by
  induction l1 generalizing i with
  | nil => simp [dispatchTraceFrom]
  | cons b bs ih =>
    simp only [List.cons_append, dispatchTraceFrom, List.append_assoc, List.length_cons]
    rw [List.append_eq, ih (i + 1)]
    have h : i + 1 + bs.length = i + (bs.length + 1) := by omega
    rw [h]

/-- Every event of a trace started at index `i` concerns a record of
index at least `i`. -/
theorem dispatchTraceFrom_idx_ge (l : List Book) (i : Nat) :
    ∀ e ∈ dispatchTraceFrom i l, i ≤ e.idx := by
  induction l generalizing i with
  | nil => intro e he; simp [dispatchTraceFrom] at he
  | cons b bs ih =>
    intro e he
    simp only [dispatchTraceFrom, List.mem_append] at he
    rcases he with he | he
    · unfold recordEvents at he
      split at he <;> simp only [List.mem_cons, List.mem_singleton, List.not_mem_nil,
        or_false] at he <;>
        rcases he with rfl | rfl | rfl <;> simp [DispatchEvent.idx]
    · exact Nat.le_trans (Nat.le_succ i) (ih (i + 1) e he)

/-- C2 (counterexample).  With a first record in the sequential branch
and a second record after it, the main thread blocks on the first
record catalog future (line 253) before it ever submits the second
record tasks: in the trace, the wait on record 0 precedes the submit of
record 1 catalog lookup, so the second record lookups cannot run while
record 0 catalog lookup is in flight — refuting the claim that the
sequential pair does not delay the dispatch of other records. -/
theorem dispatch_blocking_counterexample :
    dispatchTrace [c2book0, c2book1] =
      [DispatchEvent.submitInfo 0, DispatchEvent.waitInfo 0, DispatchEvent.submitLib 0,
        DispatchEvent.submitInfo 1, DispatchEvent.submitLib 1] ∧
    List.indexOf (DispatchEvent.waitInfo 0) (dispatchTrace [c2book0, c2book1]) <
      List.indexOf (DispatchEvent.submitInfo 1) (dispatchTrace [c2book0, c2book1]) := by
  decide

/-- C2 (amended).  For a record in the sequential branch (item id known,
ISBN empty) at position `bs1.length`: its catalog task is submitted,
then the main thread blocks until that catalog lookup completes, then
its ownership task is submitted — so the catalog lookup concludes
before the ownership dispatch, as claimed.  However, the wait happens
on the main dispatch thread: every event of every later record sits
after the wait in the trace (second conjunct: all trailing events carry
larger record indices), so only records dispatched earlier can run
while that catalog lookup is in flight, and all later records are
delayed. -/
theorem dispatch_sequencing_amended (bs1 bs2 : List Book) (b : Book)
    (h : needsSeq b = true) :
    dispatchTrace (bs1 ++ b :: bs2) =
      dispatchTrace bs1 ++
        [DispatchEvent.submitInfo bs1.length, DispatchEvent.waitInfo bs1.length,
          DispatchEvent.submitLib bs1.length] ++
        dispatchTraceFrom (bs1.length + 1) bs2 ∧
    ∀ e ∈ dispatchTraceFrom (bs1.length + 1) bs2, bs1.length + 1 ≤ e.idx := by
  refine ⟨?_, dispatchTraceFrom_idx_ge bs2 (bs1.length + 1)⟩
  unfold dispatchTrace
  rw [dispatchTraceFrom_append]
  simp [dispatchTraceFrom, recordEvents, h]

/-- Witness for the amended C2 at a concrete two-record input. -/
theorem dispatch_sequencing_amended_witness :
    (dispatchTrace ([] ++ c2book0 :: [c2book1]) =
      dispatchTrace [] ++
        [DispatchEvent.submitInfo 0, DispatchEvent.waitInfo 0, DispatchEvent.submitLib 0] ++
        dispatchTraceFrom 1 [c2book1] ∧
      ∀ e ∈ dispatchTraceFrom 1 [c2book1], 1 ≤ e.idx) ∧
    dispatchTrace ([] ++ c2book0 :: [c2book1]) =
      [DispatchEvent.submitInfo 0, DispatchEvent.waitInfo 0, DispatchEvent.submitLib 0,
        DispatchEvent.submitInfo 1, DispatchEvent.submitLib 1] :=
  ⟨dispatch_sequencing_amended [] [c2book1] c2book0 (by decide), by decide⟩

/-- C8.  For a record with a known item id and empty ISBN-13 (in any
position of the input list), the ownership task is submitted right
after the blocking wait on the catalog future, unconditionally — the
trace is a function of the input records only, so a failed catalog
lookup does not suppress the ownership dispatch.  When the catalog
lookup fails (say with a network error), the record ISBN-13 is still
empty, the ownership request payload carries the empty string as its
search keyword, and the result-set match test then compares each entry
against the empty ISBN. -/
theorem empty_isbn_ownership_dispatch (bs1 bs2 : List Book) (b : Book) (n : Int)
    (entry : LibEntry) (fetch : String → Option String) (neis prov : String)
    (hid : b.item_id = ItemId.intId n) (hisbn : b.isbn13 = "") :
    dispatchTrace (bs1 ++ b :: bs2) =
      dispatchTrace bs1 ++
        [DispatchEvent.submitInfo bs1.length, DispatchEvent.waitInfo bs1.length,
          DispatchEvent.submitLib bs1.length] ++
        dispatchTraceFrom (bs1.length + 1) bs2 ∧
    (update_book_info b CatalogResponse.netErr fetch).isbn13 = "" ∧
    (libraryPayload (update_book_info b CatalogResponse.netErr fetch) neis prov).searchKeyword
      = "" ∧
    libraryMatches (update_book_info b CatalogResponse.netErr fetch) entry =
      (entry.isbn == some "") := by
  have hseq : needsSeq b = true := by
    unfold needsSeq
    rw [hid, hisbn]
    rfl
  refine ⟨?_, hisbn, hisbn, ?_⟩
  · unfold dispatchTrace
    rw [dispatchTraceFrom_append]
    simp [dispatchTraceFrom, recordEvents, hseq]
  · simp only [update_book_info, libraryMatches, hisbn]

/-- Witness for C8 at a concrete record. -/
theorem empty_isbn_ownership_dispatch_witness :
    dispatchTrace ([] ++ c8book :: []) =
      dispatchTrace [] ++
        [DispatchEvent.submitInfo 0, DispatchEvent.waitInfo 0, DispatchEvent.submitLib 0] ++
        dispatchTraceFrom 1 [] ∧
    (update_book_info c8book CatalogResponse.netErr (fun _ => none)).isbn13 = "" ∧
    (libraryPayload (update_book_info c8book CatalogResponse.netErr (fun _ => none))
      "N10" "J10").searchKeyword = "" ∧
    libraryMatches (update_book_info c8book CatalogResponse.netErr (fun _ => none)) c8entry =
      (c8entry.isbn == some "") :=
  empty_isbn_ownership_dispatch [] [] c8book 99 c8entry (fun _ => none) "N10" "J10" rfl rfl

/-- The sheet-name collection loop, generalized over its accumulator:
it appends exactly the first-seen deduplication of the names not
already present. -/
theorem foldl_seqStep (l : List String) :
    ∀ acc, l.foldl seqStep acc = acc ++ firstSeen (l.filter (fun s => decide (s ∉ acc))) := by
  induction l with
  | nil => intro acc; simp [firstSeen]
  | cons x xs ih =>
    intro acc
    rw [List.foldl_cons]
    by_cases hx : x ∈ acc
    · rw [show seqStep acc x = acc from if_pos hx, ih acc]
      congr 2
      rw [List.filter_cons]
      simp [hx]
    · rw [show seqStep acc x = acc ++ [x] from if_neg hx, ih (acc ++ [x])]
      rw [List.filter_cons]
      simp only [hx, not_false_eq_true, decide_True, if_true]
      simp only [firstSeen]
      rw [List.append_assoc, List.singleton_append]
      have hfil : xs.filter (fun s => decide (s ∉ acc ++ [x])) =
          (xs.filter (fun s => decide (s ∉ acc))).filter (fun y => y != x) := by
        rw [List.filter_filter]
        apply List.filter_congr
        intro a _
        by_cases h : a = x <;> by_cases h2 : a ∈ acc <;>
          simp [h, h2, List.mem_append, bne_iff_ne]
      rw [hfil]

/-- C4.  The workbook layout: the sheets are exactly the first-seen
deduplication of the input sheet names, in first-occurrence order, each
paired with its row list; every sheet row list is sorted in ascending
display order (`order`, assigned from input row position); and every
sheet row list is a permutation of the input records carrying that
sheet name.  The layout is a pure function of the final record list, on
which enrichment completion order has no bearing: the lookups never
touch `sheet_name` or `order`, and (with all `order` values distinct, as
assigned from distinct input rows) a sorted permutation of a fixed
multiset is unique. -/
theorem create_output_ordering (books : List Book) :
    createSheets books =
      (firstSeen (books.map Book.sheet_name)).map (fun s => (s, groupBooksFor books s)) ∧
    (∀ s, (groupBooksFor books s).Sorted bookLE) ∧
    ∀ s, (groupBooksFor books s).Perm (books.filter (fun b => b.sheet_name == s)) := by
  refine ⟨?_, fun s => List.sorted_insertionSort bookLE _,
    fun s => List.perm_insertionSort bookLE _⟩
  unfold createSheets
  congr 1
  unfold sheetSequence
  rw [← List.foldl_map, foldl_seqStep, List.nil_append]
  congr 1
  exact List.filter_eq_self.mpr (fun a _ => by simp)

/-- C5 (counterexample).  The hyperlink condition of line 331 uses
Python truthiness, not presence: with status `EXISTS` and both
reference keys present but `bookKey = 0` (a falsy int), the cell is
written as the plain text `O`, not as a hyperlink — so hyperlinking is
not equivalent to the keys being present. -/
theorem ownership_cell_counterexample :
    ¬ ownershipCellClaim c5book "J10" "N10" "School" := by
  intro h
  have hkeys : c5book.library_status = LibraryBookStatus.EXISTS ∧
      c5book.key.isSome = true ∧ c5book.species_key.isSome = true := by decide
  have : isHyperlink (ownershipCell c5book "J10" "N10" "School") = true := h.mpr hkeys
  exact absurd this (by decide)

/-- C5 (amended).  The ownership cell is a hyperlink exactly when the
status is `EXISTS` and both reference keys are truthy (present and
nonzero); when it is a hyperlink its label is the literal 링크 (the
label the design glosses as "link"), and otherwise the cell is the
plain indicator text: `O` for `EXISTS`, `X` for `NOT_EXISTS`, `?` for
`UNKNOWN`, with no hyperlink. -/
theorem ownership_cell_amended (b : Book) (prov neis school : String) :
    (isHyperlink (ownershipCell b prov neis school) = true ↔
      (b.library_status = LibraryBookStatus.EXISTS ∧ truthyOptInt b.key = true ∧
        truthyOptInt b.species_key = true)) ∧
    cellLabel (ownershipCell b prov neis school) =
      (if isHyperlink (ownershipCell b prov neis school) then "링크"
        else ownershipIndicator b) ∧
    ownershipIndicator b =
      (match b.library_status with
        | .EXISTS => "O"
        | .NOT_EXISTS => "X"
        | .UNKNOWN => "?") := by
  cases hls : b.library_status <;>
    by_cases h2 : truthyOptInt b.key = true <;>
    by_cases h3 : truthyOptInt b.species_key = true <;>
      simp [ownershipCell, ownershipIndicator, isHyperlink, cellLabel, hls, h2, h3]

/-- C6.  Semantics of the old-book conditional-formatting rule: every
sheet gets exactly the two rules in order (ownership highlight first,
old-book second); the old-book formula fires exactly when the leading
four characters of the publish-date cell parse as a number that differs
from the current year and is strictly below the current year minus
four; with current year 2025, publish date 2019-03-01 fires and
2022-01-01 does not.  The formula reads column `$G`, which is column
index 6, the publish-date column. -/
theorem old_book_rule_semantics :
    (∀ (pub : String) (y : Int),
      oldBookFlag pub y = true ↔
        ∃ v : Rat, excelVALUE (excelLEFT pub 4) = some v ∧
          v ≠ (y : Rat) ∧ v < (y : Rat) - 4) ∧
    oldBookFlag "2019-03-01" 2025 = true ∧
    oldBookFlag "2022-01-01" 2025 = false ∧
    (∀ (n : Nat) (y : Int), sheetCondRules n y = [highlightRule n, oldBookRule n y]) ∧
    (∀ b : Book, (COLUMNS.get? 6).map (fun c => c.getter b) =
      some (CellVal.s b.publish_date)) := by
  have hiff : ∀ (pub : String) (y : Int),
      oldBookFlag pub y = true ↔
        ∃ v : Rat, excelVALUE (excelLEFT pub 4) = some v ∧
          v ≠ (y : Rat) ∧ v < (y : Rat) - 4 := by
    intro pub y
    unfold oldBookFlag
    cases hv : excelVALUE (excelLEFT pub 4) with
    | none => simp
    | some v => simp [decide_eq_true_eq]
  have h2019 : excelVALUE (excelLEFT "2019-03-01" 4) = some ((2019 : Nat) : Rat) := rfl
  have h2022 : excelVALUE (excelLEFT "2022-01-01" 4) = some ((2022 : Nat) : Rat) := rfl
  refine ⟨hiff, ?_, ?_, fun n y => rfl, fun b => rfl⟩
  · exact (hiff _ _).mpr ⟨((2019 : Nat) : Rat), h2019, by norm_num, by norm_num⟩
  · rw [Bool.eq_false_iff]
    intro hc
    obtain ⟨v, hv, hne, hlt⟩ := (hiff _ _).mp hc
    rw [h2022] at hv
    injection hv with hv
    rw [← hv] at hlt
    norm_num at hlt

/-- C9.  A successful catalog lookup stores the response `itemId` in
the record item-id field — the integer when present, the empty string
when the response lacks the field (line 171).  An empty-string item id
is falsy, so the title cell of such a record is then written as plain
text, not as a hyperlink to the catalog item page (lines 336-341). -/
theorem item_id_overwrite_falsy (b : Book) (item : AladinItem) (rest : List AladinItem)
    (fetch : String → Option String) (score : Rat) (count price : Int)
    (hsc : pyFloat ((item.ratingInfo.getD {}).ratingScore.getD (.n 0)) = some score)
    (hct : pyInt ((item.ratingInfo.getD {}).ratingCount.getD (.n 0)) = some count)
    (hpr : pyInt (item.priceStandard.getD (.n 0)) = some price) :
    (update_book_info b (CatalogResponse.ok (item :: rest)) fetch).item_id =
      itemIdOfOpt item.itemId ∧
    (item.itemId = none →
      (update_book_info b (CatalogResponse.ok (item :: rest)) fetch).item_id =
        ItemId.strId "" ∧
      titleCell (update_book_info b (CatalogResponse.ok (item :: rest)) fetch) =
        CellOut.text (item.title.getD "")) := by
  simp only [update_book_info, hsc, hct, hpr]
  obtain ⟨c, hc⟩ := applyCover_fields _ item.cover fetch
  rw [hc]
  refine ⟨rfl, fun hnone => ⟨by simp [hnone, itemIdOfOpt], ?_⟩⟩
  simp [titleCell, hnone, itemIdOfOpt, ItemId.truthy]

/-- Witness for C9: a concrete successful lookup on an item without an
`itemId` field stores the empty string and yields a plain-text title
cell. -/
theorem item_id_overwrite_falsy_witness :
    (update_book_info c9book (CatalogResponse.ok [c9item]) (fun _ => none)).item_id =
      ItemId.strId "" ∧
    titleCell (update_book_info c9book (CatalogResponse.ok [c9item]) (fun _ => none)) =
      CellOut.text "어떤 책" := by
  obtain ⟨-, h⟩ :=
    item_id_overwrite_falsy c9book c9item [] (fun _ => none) 8 120 15000 rfl rfl rfl
  exact h rfl

/-- The accumulator is a lower bound of a running-maximum fold. -/
theorem foldl_max_le_init (l : List (Nat × Column)) (g : Nat × Column → Rat) :
    ∀ a : Rat, a ≤ l.foldl (fun acc p => max acc (g p)) a := by
  induction l with
  | nil => intro a; exact le_refl a
  | cons x xs ih => intro a; exact le_trans (le_max_left a (g x)) (ih (max a (g x)))

/-- C10.  The row-height pass always charges the fixed image-cell
height 112 for the cover column (line 311), whether or not the record
has a cover image, so every data row is at least 112 high — in
particular a record with no cover and single-line text in every column
still gets height 112 (its text cells need only `font_size * 1.7`). -/
theorem row_height_min_112 : ∀ (fontSize : Int) (b : Book),
    (112 : Rat) ≤ rowHeightFor fontSize b := by
  intro fs b
  obtain ⟨c0, rest, hcons⟩ : ∃ c0 rest, COLUMNS.enum = (0, c0) :: rest := ⟨_, _, rfl⟩
  unfold rowHeightFor
  rw [hcons, List.foldl_cons]
  have h112 : cellHeight fs 0 c0 b = 112 := rfl
  rw [h112]
  exact le_trans (le_max_right _ 112) (foldl_max_le_init _ _ _)

/-- C7.  The width of every non-image column equals the maximum of the
header estimate and all cell estimates of that sheet — the estimate
being pixel width over average glyph width plus 0.1, with characters
above code point 127 counted at twice the average width inside
`get_text_px` — clamped to at most 60 character units; the width never
exceeds 60, and as soon as the unclamped maximum exceeds 60 the column
gets exactly 60.  The full width vector keeps the fixed 16 for the
image column and applies this computation to every other column. -/
theorem column_width_clamp (books : List Book) (font : PILFont) (col : Column) :
    colWidthCode books col font = min 60 (colWidthSpecMax books col font) ∧
    colWidthCode books col font ≤ 60 ∧
    (60 < colWidthSpecMax books col font → colWidthCode books col font = 60) ∧
    colWidthsFor books font =
      (16 : Rat) :: (COLUMNS.drop 1).map (fun c => colWidthCode books c font) := by
  have heq : colWidthCode books col font = min 60 (colWidthSpecMax books col font) := by
    unfold colWidthCode colWidthSpecMax
    rw [min_comm]
    congr 1
    simp only [List.map_cons, List.foldl_cons, List.map_map, List.foldl_map, Function.comp]
  refine ⟨heq, ?_, fun h => ?_, ?_⟩
  · rw [heq]; exact min_le_left _ _
  · rw [heq]; exact min_eq_left (le_of_lt h)
  · rfl

/-- Pixel estimate of a run of one repeated character. -/
theorem linePx_replicate (avg : Rat) (c : Char) (k : Nat) :
    linePx avg (List.replicate k c) = (k : Rat) * charPx avg c := by
  have hgen : ∀ (k : Nat) (a : Rat),
      List.foldl (fun acc c2 => acc + charPx avg c2) a (List.replicate k c) =
        a + (k : Rat) * charPx avg c := by
    intro k
    induction k with
    | zero => intro a; simp
    | succ m ih =>
      intro a
      rw [List.replicate_succ, List.foldl_cons, ih]
      push_cast
      ring
  unfold linePx
  rw [hgen]
  ring

/-- Wide characters count twice the average width. -/
theorem charPx_hangul (avg : Rat) : charPx avg '가' = 2 * avg := by
  unfold charPx
  rw [if_pos (show (127 : Nat) < Char.toNat (Char.ofNat 44032) by decide)]

/-- Witness for C7: under `c7font` the 31-character memo estimates to
62.1 character units, above the clamp, and the rendered width is
exactly 60. -/
theorem column_width_clamp_witness :
    colWidthCode [c7book] c7col c7font = 60 := by
  have h1 : (get_text_px "가가가가가가가가가가가가가가가가가가가가가가가가가가가가가가가" c7font).1
      = ratTrunc (max 0 (linePx ((1 : Rat) / 2) (List.replicate 31 '가'))) := rfl
  have hpx : (get_text_px "가가가가가가가가가가가가가가가가가가가가가가가가가가가가가가가" c7font).1
      = 31 := by
    rw [h1, linePx_replicate, charPx_hangul]
    rw [show ((31 : Nat) : Rat) * (2 * (1 / 2)) = 31 by norm_num]
    rw [max_eq_right (show (0 : Rat) ≤ 31 by norm_num)]
    unfold ratTrunc
    rw [if_neg (show ¬ (31 : Rat) < 0 by norm_num)]
    simp
  have h60 : (60 : Rat) < estCharW (widthText c7col c7book) c7font := by
    have hwt : widthText c7col c7book =
        "가가가가가가가가가가가가가가가가가가가가가가가가가가가가가가가" := rfl
    unfold estCharW
    rw [hwt, hpx, show c7font.avgA = (1 : Rat) / 2 from rfl]
    norm_num
  have hlt : (60 : Rat) < colWidthSpecMax [c7book] c7col c7font := by
    have hshape : colWidthSpecMax [c7book] c7col c7font =
        max (max 0 (estCharW c7col.header c7font))
          (estCharW (widthText c7col c7book) c7font) := rfl
    rw [hshape]
    exact lt_of_lt_of_le h60 (le_max_right _ _)
  exact (column_width_clamp [c7book] c7font c7col).2.2.1 hlt
